import Mathlib

set_option maxHeartbeats 1000000

/-
  Verification of the osb-broker-lib REST layer (pkg/rest/apisurface.go,
  pkg/rest/writer.go, pkg/broker/user_info.go) against its natural-language
  specification.

  The embedding models HTTP requests as records of path variables (mux vars),
  query/form values, headers and a body string; the per-operation unpackers,
  the operation handlers, the error writer and the originating-identity
  decoding are translated function-by-function from the Go source.  The
  business logic is an external collaborator and is modelled as a record of
  functions the dispatcher calls.
-/

/-! ### String helpers

Go's strings package operations used by the source.  Character lowering is
modelled on the ASCII range (Lean's Char.toLower); the strings the code
compares against ("true", "kubernetes", "cloudfoundry") are ASCII, where
this agrees with Go's unicode lowering. -/

/-- Go strings.ToLower restricted to ASCII case mapping. -/
def toLowerStr (s : String) : String :=
  String.mk (s.data.map Char.toLower)

/-- Case-insensitive string equality, the reading of the spec's
"case-insensitively equals". -/
def eqIgnoreCase (a b : String) : Bool :=
  toLowerStr a == toLowerStr b

/-- Core of Go strings.Split with a one-character separator: accumulates the
current field (reversed) and emits a field at each separator.  Split never
returns an empty list; splitting the empty string yields one empty field,
as in Go. -/
def splitOnCharAux (sep : Char) : List Char → List Char → List (List Char)
  | [], acc => [acc.reverse]
  | c :: rest, acc =>
    if c = sep then acc.reverse :: splitOnCharAux sep rest []
    else splitOnCharAux sep rest (c :: acc)

/-- Go strings.Split(s, sep) for a one-character separator. -/
def splitOnChar (sep : Char) (s : String) : List String :=
  (splitOnCharAux sep s.data []).map String.mk

/-- The split performed by retrieveOriginatingIdentity:
strings.Split(header, " ") — a split on the single space character. -/
def splitSpace (s : String) : List String :=
  splitOnChar ' ' s

/-- ASCII whitespace as Go's unicode.IsSpace treats it. -/
def isGoSpace (c : Char) : Bool :=
  c == ' ' || c == '\t' || c == '\n' || c == '\r' || c == '\x0b' || c == '\x0c'

/-- Collect maximal runs of non-whitespace characters, the current run held
reversed in the accumulator. -/
def whitespaceTokensAux : List Char → List Char → List String
  | [], acc => if acc.isEmpty then [] else [String.mk acc.reverse]
  | c :: rest, acc =>
    if isGoSpace c then
      if acc.isEmpty then whitespaceTokensAux rest []
      else String.mk acc.reverse :: whitespaceTokensAux rest []
    else whitespaceTokensAux rest (c :: acc)

/-- Maximal runs of non-whitespace characters (Go strings.Fields).  Used only
on the specification side, to state the spec's "whitespace-separated tokens"
reading. -/
def whitespaceTokens (s : String) : List String :=
  whitespaceTokensAux s.data []

/-- Presence test for the space character, used to state which strings split
cleanly on a single space. -/
def spaceFree (s : String) : Bool :=
  s.data.all (fun c => c ≠ ' ')

/-! ### Base64 (encoding/base64 StdEncoding decoding)

Go's base64.StdEncoding.DecodeString: standard alphabet, padding required,
carriage returns and newlines are ignored wherever they occur (documented
behaviour of (*Encoding).Decode), and — as in the default, non-Strict
encoding — nonzero trailing padding bits are accepted. -/

/-- Value of one character of the standard base64 alphabet. -/
def b64Val (c : Char) : Option Nat :=
  if 'A' ≤ c ∧ c ≤ 'Z' then some (c.toNat - 'A'.toNat)
  else if 'a' ≤ c ∧ c ≤ 'z' then some (c.toNat - 'a'.toNat + 26)
  else if '0' ≤ c ∧ c ≤ '9' then some (c.toNat - '0'.toNat + 52)
  else if c = '+' then some 62
  else if c = '/' then some 63
  else none

/-- Decode base64 input, already stripped of CR/LF, four characters at a
time; '=' padding is legal only at the end of the final quantum. -/
def b64Chunks : List Char → Option (List Nat)
  | [] => some []
  | [a, b, '=', '='] => do
    let x ← b64Val a
    let y ← b64Val b
    pure [x * 4 + y / 16]
  | [a, b, c, '='] => do
    let x ← b64Val a
    let y ← b64Val b
    let z ← b64Val c
    pure [x * 4 + y / 16, (y % 16) * 16 + z / 4]
  | a :: b :: c :: d :: rest => do
    let x ← b64Val a
    let y ← b64Val b
    let z ← b64Val c
    let w ← b64Val d
    let tail ← b64Chunks rest
    pure ((x * 4 + y / 16) :: ((y % 16) * 16 + z / 4) :: ((z % 4) * 64 + w) :: tail)
  | _ => none

/-- Go base64.StdEncoding.DecodeString; the decoded bytes are returned as a
string of code points below 256, matching Go's string([]byte) conversion for
the ASCII payloads the verified properties touch. -/
def base64Decode (s : String) : Option String :=
  (b64Chunks (s.data.filter (fun c => c ≠ '\r' ∧ c ≠ '\n'))).map
    (fun bs => String.mk (bs.map Char.ofNat))

/-! ### JSON values and parsing (encoding/json)

A syntax tree for JSON and a fuel-indexed recursive-descent parser.  Numbers
keep their raw text (no verified property inspects numeric values), and a
\uXXXX escape becomes the code point of its four hex digits (surrogate-pair
recombination is not modelled; no verified property depends on it). -/

/-- JSON values as decoded by encoding/json. -/
inductive Json where
  | null
  | bool (b : Bool)
  | num (raw : String)
  | str (s : String)
  | arr (elems : List Json)
  | obj (members : List (String × Json))

/-- JSON insignificant whitespace. -/
def isJsonWs (c : Char) : Bool :=
  c == ' ' || c == '\t' || c == '\n' || c == '\r'

/-- Drop leading JSON whitespace. -/
def skipWs (l : List Char) : List Char :=
  l.dropWhile isJsonWs

/-- Value of a hexadecimal digit. -/
def hexDigitVal (c : Char) : Option Nat :=
  if '0' ≤ c ∧ c ≤ '9' then some (c.toNat - '0'.toNat)
  else if 'a' ≤ c ∧ c ≤ 'f' then some (c.toNat - 'a'.toNat + 10)
  else if 'A' ≤ c ∧ c ≤ 'F' then some (c.toNat - 'A'.toNat + 10)
  else none

/-- Parse the remainder of a JSON string literal (the opening quote already
consumed), handling escapes; returns the decoded string and the input after
the closing quote. -/
def parseStringBody : List Char → List Char → Option (String × List Char)
  | _, [] => none
  | acc, '"' :: rest => some (String.mk acc.reverse, rest)
  | acc, '\\' :: esc =>
    match esc with
    | '"' :: rest => parseStringBody ('"' :: acc) rest
    | '\\' :: rest => parseStringBody ('\\' :: acc) rest
    | '/' :: rest => parseStringBody ('/' :: acc) rest
    | 'b' :: rest => parseStringBody ('\x08' :: acc) rest
    | 'f' :: rest => parseStringBody ('\x0c' :: acc) rest
    | 'n' :: rest => parseStringBody ('\n' :: acc) rest
    | 'r' :: rest => parseStringBody ('\r' :: acc) rest
    | 't' :: rest => parseStringBody ('\t' :: acc) rest
    | 'u' :: a :: b :: c :: d :: rest =>
      match hexDigitVal a, hexDigitVal b, hexDigitVal c, hexDigitVal d with
      | some ha, some hb, some hc, some hd =>
        parseStringBody (Char.ofNat (((ha * 16 + hb) * 16 + hc) * 16 + hd) :: acc) rest
      | _, _, _, _ => none
    | _ => none
  | acc, c :: rest =>
    if c.toNat < 32 then none else parseStringBody (c :: acc) rest

/-- Split a leading run of decimal digits from the rest of the input. -/
def splitDigits (l : List Char) : List Char × List Char :=
  (l.takeWhile Char.isDigit, l.dropWhile Char.isDigit)

/-- Parse an optional fractional part of a JSON number. -/
def parseFracPart : List Char → Option (List Char × List Char)
  | '.' :: r =>
    let p := splitDigits r
    if p.1.isEmpty then none else some ('.' :: p.1, p.2)
  | l => some ([], l)

/-- Parse an optional exponent part of a JSON number. -/
def parseExpPart : List Char → Option (List Char × List Char)
  | c :: r =>
    if c = 'e' ∨ c = 'E' then
      match r with
      | s :: r2 =>
        if s = '+' ∨ s = '-' then
          let p := splitDigits r2
          if p.1.isEmpty then none else some (c :: s :: p.1, p.2)
        else
          let p := splitDigits r
          if p.1.isEmpty then none else some (c :: p.1, p.2)
      | [] => none
    else some ([], c :: r)
  | [] => some ([], [])

/-- Parse the digits of a JSON number after the optional minus sign.  Leading
zeros are tolerated (Go rejects them; both models agree on every input any
verified property evaluates, since non-object payloads fail the identity
shape checks regardless). -/
def parseNumTail (l : List Char) : Option (List Char × List Char) := do
  let p := splitDigits l
  if p.1.isEmpty then none
  else do
    let f ← parseFracPart p.2
    let e ← parseExpPart f.2
    pure (p.1 ++ f.1 ++ e.1, e.2)

mutual

/-- Parse one JSON value from the input (leading whitespace allowed),
returning the value and the remaining input. -/
def parseJsonVal : Nat → List Char → Option (Json × List Char)
  | 0, _ => none
  | fuel + 1, l =>
    match skipWs l with
    | 'n' :: 'u' :: 'l' :: 'l' :: rest => some (.null, rest)
    | 't' :: 'r' :: 'u' :: 'e' :: rest => some (.bool true, rest)
    | 'f' :: 'a' :: 'l' :: 's' :: 'e' :: rest => some (.bool false, rest)
    | '"' :: rest => (parseStringBody [] rest).map (fun p => (.str p.1, p.2))
    | '[' :: rest =>
      (match skipWs rest with
       | ']' :: r2 => some (.arr [], r2)
       | r2 => parseElems fuel r2 [])
    | '\x7b' :: rest =>
      (match skipWs rest with
       | '\x7d' :: r2 => some (.obj [], r2)
       | r2 => parseMembers fuel r2 [])
    | '-' :: rest => (parseNumTail rest).map (fun p => (.num (String.mk ('-' :: p.1)), p.2))
    | c :: rest =>
      if c.isDigit then (parseNumTail (c :: rest)).map (fun p => (.num (String.mk p.1), p.2))
      else none
    | [] => none

/-- Parse the elements of a non-empty JSON array, the opening bracket already
consumed. -/
def parseElems : Nat → List Char → List Json → Option (Json × List Char)
  | 0, _, _ => none
  | fuel + 1, l, acc =>
    match parseJsonVal fuel l with
    | none => none
    | some (v, rest) =>
      match skipWs rest with
      | ',' :: r2 => parseElems fuel r2 (v :: acc)
      | ']' :: r2 => some (.arr (v :: acc).reverse, r2)
      | _ => none

/-- Parse the members of a non-empty JSON object, the opening brace already
consumed. -/
def parseMembers : Nat → List Char → List (String × Json) → Option (Json × List Char)
  | 0, _, _ => none
  | fuel + 1, l, acc =>
    match skipWs l with
    | '"' :: r =>
      (match parseStringBody [] r with
       | none => none
       | some (k, r2) =>
         match skipWs r2 with
         | ':' :: r3 =>
           (match parseJsonVal fuel r3 with
            | none => none
            | some (v, r4) =>
              match skipWs r4 with
              | ',' :: r5 => parseMembers fuel r5 ((k, v) :: acc)
              | '\x7d' :: r5 => some (.obj ((k, v) :: acc).reverse, r5)
              | _ => none)
         | _ => none)
    | _ => none

end

/-- Go json.Unmarshal viewed as a parser from text to a JSON value: parses a
single value surrounded only by whitespace. -/
def jsonParse (s : String) : Option Json :=
  match parseJsonVal (s.length + 1) s.data with
  | some (v, rest) => if (skipWs rest).isEmpty then some v else none
  | none => none

/-! ### Errors (Go error values and osb.HTTPStatusCodeError)

A Go error in this code base is either a plain message (fmt.Errorf) or an
osb.HTTPStatusCodeError carrying a status code and optional error-code /
description strings; osb.IsHTTPError distinguishes the two, which here is a
constructor match. -/

/-- Go error values flowing through the REST layer. -/
inductive GoError where
  | generic (msg : String)
  | http (statusCode : Nat) (errorMessage : Option String) (description : Option String)
deriving Repr, DecidableEq

/-- Test for the structured (status-coded) error case, as osb.IsHTTPError. -/
def GoError.isHTTPError : GoError → Bool
  | .http _ _ _ => true
  | .generic _ => false

/-- Error-or-value result of a fallible Go call. -/
abbrev GoResult (α : Type) := Except GoError α

/-- Test for the error case of a fallible call. -/
def GoResult.isErr {α : Type} : GoResult α → Bool
  | .error _ => true
  | .ok _ => false

/-- Decidable equality of fallible results, so concrete unpacker outputs can
be checked by evaluation. -/
instance {ε α : Type} [DecidableEq ε] [DecidableEq α] : DecidableEq (Except ε α) := fun x y =>
  match x, y with
  | .error a, .error b =>
    if h : a = b then .isTrue (by rw [h])
    else .isFalse (fun hc => by injection hc; exact h (by assumption))
  | .ok a, .ok b =>
    if h : a = b then .isTrue (by rw [h])
    else .isFalse (fun hc => by injection hc; exact h (by assumption))
  | .error _, .ok _ => .isFalse (fun hc => Except.noConfusion hc)
  | .ok _, .error _ => .isFalse (fun hc => Except.noConfusion hc)

/-! ### Originating identity (pkg/broker/user_info.go)

NewIdentity decodes the base64 value, then dispatches on the lowered
platform token: "kubernetes" expects the JSON shape of the UserInfo record,
"cloudfoundry" expects an arbitrary JSON object, and any other platform is
rejected. -/

/-- UserInfo — the kubernetes user info object of user_info.go. -/
structure UserInfo where
  username : String
  uid : String
  groups : List String
  extra : List (String × List String)
deriving Repr, DecidableEq

/-- Zero value of UserInfo, as Go's UserInfo{}. -/
def UserInfo.zero : UserInfo :=
  { username := "", uid := "", groups := [], extra := [] }

/-- Identity — the closed union of the two Identity implementations of
user_info.go (K8SIdentity and CloudFoundry), each carrying the platform
string it was built with. -/
inductive Identity where
  | k8s (platform : String) (userInfo : UserInfo)
  | cloudFoundry (platform : String) (value : List (String × Json))

/-- Platform accessor shared by both Identity implementations. -/
def Identity.platformOf : Identity → String
  | .k8s p _ => p
  | .cloudFoundry p _ => p

/-- Go json.Unmarshal of a JSON value into a string target: strings land,
null is a no-op on the previous value, anything else is a type error. -/
def jsonIntoString (prev : String) : Json → Option String
  | .str s => some s
  | .null => some prev
  | _ => none

/-- Go json.Unmarshal of a JSON value into a []string target: an array whose
elements are strings (a null element leaves the zero string), or null for
the previous value. -/
def jsonIntoStringList (prev : List String) : Json → Option (List String)
  | .arr xs =>
    xs.mapM (fun j =>
      match j with
      | .str s => some s
      | .null => some ""
      | _ => none)
  | .null => some prev
  | _ => none

/-- Go json.Unmarshal of a JSON value into a map[string][]string target. -/
def jsonIntoExtra (prev : List (String × List String)) :
    Json → Option (List (String × List String))
  | .obj kvs => kvs.mapM (fun kv => (jsonIntoStringList [] kv.2).map (fun l => (kv.1, l)))
  | .null => some prev
  | _ => none

/-- Apply one JSON object member to a UserInfo under Go's struct unmarshal
rules: field names match case-insensitively, unknown members are ignored,
and a member of the wrong type is an error. -/
def applyUserInfoField (u : UserInfo) (k : String) (v : Json) : Option UserInfo :=
  if eqIgnoreCase k "Username" then (jsonIntoString u.username v).map (fun s => { u with username := s })
  else if eqIgnoreCase k "UID" then (jsonIntoString u.uid v).map (fun s => { u with uid := s })
  else if eqIgnoreCase k "Groups" then (jsonIntoStringList u.groups v).map (fun g => { u with groups := g })
  else if eqIgnoreCase k "Extra" then (jsonIntoExtra u.extra v).map (fun e => { u with extra := e })
  else some u

/-- Go json.Unmarshal into a UserInfo struct: null is a no-op on the zero
value, an object folds its members in order (later duplicates win), any
other top-level value is an error. -/
def unmarshalUserInfo : Json → Option UserInfo
  | .null => some UserInfo.zero
  | .obj kvs => kvs.foldlM (fun u kv => applyUserInfoField u kv.1 kv.2) UserInfo.zero
  | _ => none

/-- Go json.Unmarshal into a map[string]interface-typed value: a JSON object
(or null, a no-op on the nil map); any other top-level value is an error. -/
def unmarshalMapObj : Json → Option (List (String × Json))
  | .null => some []
  | .obj kvs => some kvs
  | _ => none

/-- NewIdentity of user_info.go: base64-decode the value, then switch on the
lowered platform; each recognized platform unmarshals the decoded JSON into
its expected shape, and anything else is rejected. -/
def NewIdentity (platform value : String) : GoResult Identity :=
  match base64Decode value with
  | none => .error (.generic "unable decode identity value")
  | some val =>
    if toLowerStr platform = "kubernetes" then
      match jsonParse val with
      | none => .error (.generic "unable to unmarshal json for value")
      | some j =>
        match unmarshalUserInfo j with
        | none => .error (.generic "unable to unmarshal json for value")
        | some u => .ok (.k8s platform u)
    else if toLowerStr platform = "cloudfoundry" then
      match jsonParse val with
      | none => .error (.generic "unable to unmarshal json for value")
      | some j =>
        match unmarshalMapObj j with
        | none => .error (.generic "unable to unmarshal json for value")
        | some m => .ok (.cloudFoundry platform m)
    else .error (.generic "unable to determine type of identity")

/-- Membership of a platform token in the recognized set of NewIdentity's
switch (matched case-insensitively, as the switch lowers its scrutinee). -/
def recognizedPlatform (platform : String) : Bool :=
  toLowerStr platform == "kubernetes" || toLowerStr platform == "cloudfoundry"

/-- Shape acceptance of a decoded payload for a platform: the payload parses
as JSON and unmarshals into the platform's expected shape, exactly the two
match chains of NewIdentity. -/
def platformShapeOk (platform payload : String) : Bool :=
  if toLowerStr platform = "kubernetes" then
    match jsonParse payload with
    | some j => (unmarshalUserInfo j).isSome
    | none => false
  else if toLowerStr platform = "cloudfoundry" then
    match jsonParse payload with
    | some j => (unmarshalMapObj j).isSome
    | none => false
  else false

/-- Identity resolution as the spec's Identity Resolver describes it: the
header splitting and two-token check of retrieveOriginatingIdentity
(apisurface.go), whose tokens feed the platform dispatch of NewIdentity
(user_info.go).  The snapshot keeps the two halves in separate functions;
this composition is the resolution pipeline the claims quantify over. -/
def resolveIdentity (header : String) : GoResult Identity :=
  if header ≠ "" then
    match splitSpace header with
    | [platform, value] => NewIdentity platform value
    | _ => .error (.generic "invalid originating identity header")
  else .error (.generic "unable to find originating identity")

/-! ### HTTP requests (the inputs of the REST layer)

An inbound request as the unpackers see it: the mux path variables, the URL
query / form values (FormValue draws from the URL query for the GET and
DELETE requests involved here), the headers, and the raw body.  A missing
map key yields the empty string, as a Go map lookup does. -/

/-- An inbound HTTP request, reduced to the projections apisurface.go
reads. -/
structure HttpRequest where
  vars : List (String × String)
  query : List (String × String)
  headers : List (String × String)
  body : String
deriving Repr, DecidableEq

/-- Go map indexing over an association list: the first binding, or the zero
value "" when the key is absent. -/
def assocGet (l : List (String × String)) (k : String) : String :=
  (l.lookup k).getD ""

/-- mux.Vars(r)[k] — a path variable, "" when absent. -/
def varsGet (r : HttpRequest) (k : String) : String :=
  assocGet r.vars k

/-- r.URL.Query().Get(k): the first query value, "" when absent.  r.FormValue
resolves to the same lookup for the body-less methods used here. -/
def queryGet (r : HttpRequest) (k : String) : String :=
  assocGet r.query k

/-- r.Header.Get(k) for the canonical header name k. -/
def headerGet (r : HttpRequest) (k : String) : String :=
  assocGet r.headers k

/-- osb.VarKeyInstanceID. -/
def osbVarKeyInstanceID : String := "instance_id"

/-- osb.VarKeyServiceID. -/
def osbVarKeyServiceID : String := "service_id"

/-- osb.VarKeyPlanID. -/
def osbVarKeyPlanID : String := "plan_id"

/-- osb.VarKeyBindingID. -/
def osbVarKeyBindingID : String := "binding_id"

/-- osb.VarKeyOperation. -/
def osbVarKeyOperation : String := "operation"

/-- osb.AcceptsIncomplete — the accepts_incomplete query key. -/
def osbAcceptsIncomplete : String := "accepts_incomplete"

/-- osb.OriginatingIdentityHeader. -/
def originatingIdentityHeader : String := "X-Broker-API-Originating-Identity"

/-- The X-Broker-API-Version header name required by every operation. -/
def brokerAPIVersionHeader : String := "X-Broker-API-Version"

/-- Modelled from the spec: getBrokerAPIVersionFromRequest is referenced by
every handler in apisurface.go but defined in a pkg/rest file missing from
the snapshot; per the spec it reads the protocol-version header
X-Broker-API-Version from the request. -/
def getBrokerAPIVersionFromRequest (r : HttpRequest) : String :=
  headerGet r brokerAPIVersionHeader

/-! ### Typed operation requests (shapes from the osb client)

Each structure keeps the fields the unpackers assign plus the fields the
claims inspect; osb request fields no unpacker or claim touches (parameters,
context, organization/space GUIDs) are omitted from the projection. -/

/-- osb.OriginatingIdentity as retrieveOriginatingIdentity builds it: the
raw platform token and the base64-decoded value string. -/
structure OriginatingIdentity where
  platform : String
  value : String
deriving Repr, DecidableEq

/-- osb.ProvisionRequest (projected). -/
structure ProvisionRequest where
  instanceID : String
  serviceID : String
  planID : String
  acceptsIncomplete : Bool
  originatingIdentity : Option OriginatingIdentity
deriving Repr, DecidableEq

/-- osb.DeprovisionRequest (projected). -/
structure DeprovisionRequest where
  instanceID : String
  serviceID : String
  planID : String
  acceptsIncomplete : Bool
  originatingIdentity : Option OriginatingIdentity
deriving Repr, DecidableEq

/-- osb.LastOperationRequest (projected); the three optional fields are
pointers in Go, nil when never assigned. -/
structure LastOperationRequest where
  instanceID : String
  serviceID : Option String
  planID : Option String
  operationKey : Option String
deriving Repr, DecidableEq

/-- osb.BindRequest (projected). -/
structure BindRequest where
  instanceID : String
  bindingID : String
  serviceID : String
  planID : String
  originatingIdentity : Option OriginatingIdentity
deriving Repr, DecidableEq

/-- osb.UnbindRequest (projected). -/
structure UnbindRequest where
  instanceID : String
  bindingID : String
  serviceID : String
  planID : String
  originatingIdentity : Option OriginatingIdentity
deriving Repr, DecidableEq

/-- osb.UpdateInstanceRequest (projected); PlanID is a pointer in Go. -/
structure UpdateInstanceRequest where
  instanceID : String
  serviceID : String
  planID : Option String
  acceptsIncomplete : Bool
  originatingIdentity : Option OriginatingIdentity
deriving Repr, DecidableEq

/-- osb.GetBindingRequest (projected). -/
structure GetBindingRequest where
  instanceID : String
  bindingID : String
deriving Repr, DecidableEq

/-- osb.BindingLastOperationRequest (projected). -/
structure BindingLastOperationRequest where
  instanceID : String
  bindingID : String
  serviceID : Option String
  planID : Option String
  operationKey : Option String
  originatingIdentity : Option OriginatingIdentity
deriving Repr, DecidableEq

/-! ### Request unpackers (apisurface.go) -/

/-- retrieveOriginatingIdentity of apisurface.go: a non-empty identity
header must split on " " into exactly two tokens whose second token base64
decodes; the platform token and decoded value are returned undecoded
further.  An absent header is an error to this function (its callers
propagate that error). -/
def retrieveOriginatingIdentity (r : HttpRequest) : GoResult OriginatingIdentity :=
  let identityHeader := headerGet r originatingIdentityHeader
  if identityHeader ≠ "" then
    match splitSpace identityHeader with
    | [platform, value] =>
      match base64Decode value with
      | none => .error (.generic "invalid encoding for value of originating identity header")
      | some val => .ok { platform := platform, value := val }
    | _ => .error (.generic "invalid originating identity header")
  else .error (.generic "unable to find originating identity")

/-- Modelled from the spec: unmarshalRequestBody is called by the provision
and bind unpackers but defined in a pkg/rest file missing from the snapshot;
per the spec it parses the JSON body into the request's body-shaped fields
and fails on malformed JSON.  Here it yields the service_id and plan_id
string fields under Go struct-unmarshal rules (null body or missing members
leave zero values; a non-object, non-null body or a wrongly typed member is
an error). -/
def unmarshalBodyFields (body : String) : GoResult (String × String) :=
  match jsonParse body with
  | none => .error (.generic "could not unmarshal request body")
  | some .null => .ok ("", "")
  | some (.obj kvs) =>
    match kvs.foldlM
        (fun (acc : String × String) kv =>
          if kv.1 = "service_id" then (jsonIntoString acc.1 kv.2).map (fun s => (s, acc.2))
          else if kv.1 = "plan_id" then (jsonIntoString acc.2 kv.2).map (fun s => (acc.1, s))
          else some acc)
        ("", "") with
    | none => .error (.generic "could not unmarshal request body")
    | some p => .ok p
  | some _ => .error (.generic "could not unmarshal request body")

/-- unpackProvisionRequest: unmarshal the body, take the instance id from
the path variables, set accepts_incomplete from the query value, resolve the
originating identity. -/
def unpackProvisionRequest (r : HttpRequest) : GoResult ProvisionRequest :=
  match unmarshalBodyFields r.body with
  | .error e => .error e
  | .ok bodyFields =>
    match retrieveOriginatingIdentity r with
    | .error e => .error e
    | .ok identity =>
      .ok { instanceID := varsGet r osbVarKeyInstanceID
            serviceID := bodyFields.1
            planID := bodyFields.2
            acceptsIncomplete := toLowerStr (queryGet r osbAcceptsIncomplete) == "true"
            originatingIdentity := some identity }

/-- unpackDeprovisionRequest: instance id from the path variables, service
and plan ids and accepts_incomplete from form values, identity from the
header. -/
def unpackDeprovisionRequest (r : HttpRequest) : GoResult DeprovisionRequest :=
  match retrieveOriginatingIdentity r with
  | .error e => .error e
  | .ok identity =>
    .ok { instanceID := varsGet r osbVarKeyInstanceID
          serviceID := queryGet r osbVarKeyServiceID
          planID := queryGet r osbVarKeyPlanID
          acceptsIncomplete := toLowerStr (queryGet r osbAcceptsIncomplete) == "true"
          originatingIdentity := some identity }

/-- unpackLastOperationRequest: every field, including the three optional
ones, is read from the mux path variables; an optional field is assigned
only when its variable is non-empty.  This unpacker never fails. -/
def unpackLastOperationRequest (r : HttpRequest) : GoResult LastOperationRequest :=
  let serviceID := varsGet r osbVarKeyServiceID
  let planID := varsGet r osbVarKeyPlanID
  let operation := varsGet r osbVarKeyOperation
  .ok { instanceID := varsGet r osbVarKeyInstanceID
        serviceID := if serviceID ≠ "" then some serviceID else none
        planID := if planID ≠ "" then some planID else none
        operationKey := if operation ≠ "" then some operation else none }

/-- unpackBindRequest: unmarshal the body, instance and binding ids from the
path variables, identity from the header. -/
def unpackBindRequest (r : HttpRequest) : GoResult BindRequest :=
  match unmarshalBodyFields r.body with
  | .error e => .error e
  | .ok bodyFields =>
    match retrieveOriginatingIdentity r with
    | .error e => .error e
    | .ok identity =>
      .ok { instanceID := varsGet r osbVarKeyInstanceID
            bindingID := varsGet r osbVarKeyBindingID
            serviceID := bodyFields.1
            planID := bodyFields.2
            originatingIdentity := some identity }

/-- unpackUnbindRequest: instance and binding ids from the path variables,
identity from the header; the service and plan ids are never assigned. -/
def unpackUnbindRequest (r : HttpRequest) : GoResult UnbindRequest :=
  match retrieveOriginatingIdentity r with
  | .error e => .error e
  | .ok identity =>
    .ok { instanceID := varsGet r osbVarKeyInstanceID
          bindingID := varsGet r osbVarKeyBindingID
          serviceID := ""
          planID := ""
          originatingIdentity := some identity }

/-- unpackUpdateRequest as apisurface.go defines it: the service id is read
from the service_id path variable, the plan id from the plan_id path
variable (assigned only when non-empty), and the identity from the header.
The body is never read, and the InstanceID and AcceptsIncomplete fields are
never assigned, so they keep their zero values. -/
def unpackUpdateRequest (r : HttpRequest) : GoResult UpdateInstanceRequest :=
  let serviceID := varsGet r osbVarKeyServiceID
  let planID := varsGet r osbVarKeyPlanID
  match retrieveOriginatingIdentity r with
  | .error e => .error e
  | .ok identity =>
    .ok { instanceID := ""
          serviceID := serviceID
          planID := if planID ≠ "" then some planID else none
          acceptsIncomplete := false
          originatingIdentity := some identity }

/-- unpackGetBindingRequest as apisurface.go defines it: both the instance
id and the binding id are read from the instance_id path variable (the
binding id lookup uses osb.VarKeyInstanceID).  This unpacker never fails. -/
def unpackGetBindingRequest (r : HttpRequest) : GoResult GetBindingRequest :=
  .ok { instanceID := varsGet r osbVarKeyInstanceID
        bindingID := varsGet r osbVarKeyInstanceID }

/-- unpackBindingLastOperationRequest as apisurface.go defines it: the
instance id and the binding id are both read from the instance_id path
variable; the optional service, plan and operation fields come from form
values when non-empty; the identity comes from the header. -/
def unpackBindingLastOperationRequest (r : HttpRequest) :
    GoResult BindingLastOperationRequest :=
  let serviceID := queryGet r osbVarKeyServiceID
  let planID := queryGet r osbVarKeyPlanID
  let operation := queryGet r osbVarKeyOperation
  match retrieveOriginatingIdentity r with
  | .error e => .error e
  | .ok identity =>
    .ok { instanceID := varsGet r osbVarKeyInstanceID
          bindingID := varsGet r osbVarKeyInstanceID
          serviceID := if serviceID ≠ "" then some serviceID else none
          planID := if planID ≠ "" then some planID else none
          operationKey := if operation ≠ "" then some operation else none
          originatingIdentity := some identity }

/-! ### Response and error writing (pkg/rest/writer.go)

A written HTTP response is a status code and a JSON body.  Success payloads
are carried opaquely (no claim inspects a success body); the error bodies
are modelled field by field, including the omitempty behaviour of the
error-response struct. -/

/-- The single HTTP response a handler writes: its status code and JSON
body. -/
structure HttpResponse where
  status : Nat
  body : Json

/-- writeResponse of writer.go: serialize the object at the given status
code (the body here is already a JSON value, so the Go marshalling-failure
branch cannot arise in the model). -/
def writeResponse (code : Nat) (object : Json) : HttpResponse :=
  { status := code, body := object }

/-- writeOSBStatusCodeErrorResponse: the response status is the error's own
StatusCode and the body holds the error and description members, each
present exactly when set (omitempty on both pointer fields, marshalled in
struct order). -/
def writeOSBStatusCodeErrorResponse (statusCode : Nat)
    (errorMessage description : Option String) : HttpResponse :=
  writeResponse statusCode (.obj
    ((match errorMessage with
      | some m => [("error", Json.str m)]
      | none => []) ++
     (match description with
      | some d => [("description", Json.str d)]
      | none => [])))

/-- writeErrorResponse: the caller's status code with a body whose single
description member is the error's message. -/
def writeErrorResponse (code : Nat) (msg : String) : HttpResponse :=
  writeResponse code (.obj [("description", Json.str msg)])

/-- writeError of writer.go: a status-coded error is written at its own
declared status with its own fields; any other error is written at the
caller-supplied default status with the error message as description. -/
def writeError (err : GoError) (defaultStatusCode : Nat) : HttpResponse :=
  match err with
  | .http statusCode errorMessage description =>
    writeOSBStatusCodeErrorResponse statusCode errorMessage description
  | .generic msg => writeErrorResponse defaultStatusCode msg

/-- Member lookup in a JSON object body (none on non-objects). -/
def jsonLookup (j : Json) (k : String) : Option Json :=
  match j with
  | .obj kvs => kvs.lookup k
  | _ => none

/-- Member names of a JSON object body, in order. -/
def jsonKeys (j : Json) : List String :=
  match j with
  | .obj kvs => kvs.map (fun kv => kv.1)
  | _ => []

/-! ### Business logic and typed responses

The broker's BusinessLogic interface (and the AsyncBindLogic extension
interface), as records of the capabilities the dispatcher invokes.  The
success payloads of the typed responses are opaque JSON; the provision,
deprovision and update responses additionally expose the Async flag the
handlers branch on. -/

/-- osb.ProvisionResponse wrapped by broker.ProvisionResponse: the Async
flag plus the serialized payload of the remaining fields. -/
structure ProvisionResponse where
  async : Bool
  payload : Json

/-- broker.UpdateInstanceResponse. -/
structure UpdateInstanceResponse where
  async : Bool
  payload : Json

/-- broker.DeprovisionResponse. -/
structure DeprovisionResponse where
  async : Bool
  payload : Json

/-- broker.CatalogResponse. -/
structure CatalogResponse where
  payload : Json

/-- broker.LastOperationResponse. -/
structure LastOperationResponse where
  payload : Json

/-- broker.BindResponse. -/
structure BindResponse where
  payload : Json

/-- broker.UnbindResponse. -/
structure UnbindResponse where
  payload : Json

/-- osb.GetBindingResponse. -/
structure GetBindingResponse where
  payload : Json

/-- broker.BusinessLogic: version validation plus one capability per base
operation.  ValidateBrokerAPIVersion returns a Go error or nil, modelled as
an optional error; each operation returns a typed response or an error.
The request-scoped RequestContext the Go code also passes carries only the
raw writer and request and is not modelled. -/
structure BusinessLogic where
  validateBrokerAPIVersion : String → Option GoError
  getCatalog : Unit → GoResult CatalogResponse
  provision : ProvisionRequest → GoResult ProvisionResponse
  deprovision : DeprovisionRequest → GoResult DeprovisionResponse
  lastOperation : LastOperationRequest → GoResult LastOperationResponse
  bind : BindRequest → GoResult BindResponse
  unbind : UnbindRequest → GoResult UnbindResponse
  update : UpdateInstanceRequest → GoResult UpdateInstanceResponse

/-- rest.AsyncBindLogic: the extension capability behind the GetBinding and
BindingLastOperation handlers. -/
structure AsyncBindLogic where
  getBinding : GetBindingRequest → GoResult GetBindingResponse
  bindingLastOperation : BindingLastOperationRequest → GoResult LastOperationResponse

/-! ### Operation handlers (apisurface.go)

Each handler is the Go handler's control flow made explicit: the written
response together with two flags recording whether the operation's unpacker
and the business-logic capability were reached (the Go code short-circuits
by returning early; the flags are set exactly at the call sites).  The
metrics counter increment at the top of every handler touches no
request/response data and is not modelled. -/

/-- Outcome of running one handler: the single response written and which
of the two downstream calls were made. -/
structure HandlerResult where
  response : HttpResponse
  unpackerCalled : Bool
  logicCalled : Bool

/-- GetCatalogHandler: version check (412 default on failure), then the
business logic (500 default on failure), then a 200 write. -/
def getCatalogHandler (s : BusinessLogic) (r : HttpRequest) : HandlerResult :=
  match s.validateBrokerAPIVersion (getBrokerAPIVersionFromRequest r) with
  | some e => { response := writeError e 412, unpackerCalled := false, logicCalled := false }
  | none =>
    match s.getCatalog () with
    | .error e => { response := writeError e 500, unpackerCalled := false, logicCalled := true }
    | .ok resp => { response := writeResponse 200 resp.payload, unpackerCalled := false, logicCalled := true }

/-- ProvisionHandler: version check (412), unpack (400 default on failure),
business logic (500 default on failure), then 202 when the response is
async and 200 otherwise. -/
def provisionHandler (s : BusinessLogic) (r : HttpRequest) : HandlerResult :=
  match s.validateBrokerAPIVersion (getBrokerAPIVersionFromRequest r) with
  | some e => { response := writeError e 412, unpackerCalled := false, logicCalled := false }
  | none =>
    match unpackProvisionRequest r with
    | .error e => { response := writeError e 400, unpackerCalled := true, logicCalled := false }
    | .ok request =>
      match s.provision request with
      | .error e => { response := writeError e 500, unpackerCalled := true, logicCalled := true }
      | .ok resp =>
        { response := writeResponse (if resp.async then 202 else 200) resp.payload
          unpackerCalled := true, logicCalled := true }

/-- DeprovisionHandler: version check (412), unpack (500 default on
failure), business logic (500), then 202 when async and 200 otherwise. -/
def deprovisionHandler (s : BusinessLogic) (r : HttpRequest) : HandlerResult :=
  match s.validateBrokerAPIVersion (getBrokerAPIVersionFromRequest r) with
  | some e => { response := writeError e 412, unpackerCalled := false, logicCalled := false }
  | none =>
    match unpackDeprovisionRequest r with
    | .error e => { response := writeError e 500, unpackerCalled := true, logicCalled := false }
    | .ok request =>
      match s.deprovision request with
      | .error e => { response := writeError e 500, unpackerCalled := true, logicCalled := true }
      | .ok resp =>
        { response := writeResponse (if resp.async then 202 else 200) resp.payload
          unpackerCalled := true, logicCalled := true }

/-- LastOperationHandler: version check (412), unpack (500 default on
failure), business logic (500), then a 200 write. -/
def lastOperationHandler (s : BusinessLogic) (r : HttpRequest) : HandlerResult :=
  match s.validateBrokerAPIVersion (getBrokerAPIVersionFromRequest r) with
  | some e => { response := writeError e 412, unpackerCalled := false, logicCalled := false }
  | none =>
    match unpackLastOperationRequest r with
    | .error e => { response := writeError e 500, unpackerCalled := true, logicCalled := false }
    | .ok request =>
      match s.lastOperation request with
      | .error e => { response := writeError e 500, unpackerCalled := true, logicCalled := true }
      | .ok resp =>
        { response := writeResponse 200 resp.payload, unpackerCalled := true, logicCalled := true }

/-- BindHandler: version check (412), unpack (500 default on failure),
business logic (500), then a 200 write. -/
def bindHandler (s : BusinessLogic) (r : HttpRequest) : HandlerResult :=
  match s.validateBrokerAPIVersion (getBrokerAPIVersionFromRequest r) with
  | some e => { response := writeError e 412, unpackerCalled := false, logicCalled := false }
  | none =>
    match unpackBindRequest r with
    | .error e => { response := writeError e 500, unpackerCalled := true, logicCalled := false }
    | .ok request =>
      match s.bind request with
      | .error e => { response := writeError e 500, unpackerCalled := true, logicCalled := true }
      | .ok resp =>
        { response := writeResponse 200 resp.payload, unpackerCalled := true, logicCalled := true }

/-- UnbindHandler: version check (412), unpack (500 default on failure),
business logic (500), then a 200 write. -/
def unbindHandler (s : BusinessLogic) (r : HttpRequest) : HandlerResult :=
  match s.validateBrokerAPIVersion (getBrokerAPIVersionFromRequest r) with
  | some e => { response := writeError e 412, unpackerCalled := false, logicCalled := false }
  | none =>
    match unpackUnbindRequest r with
    | .error e => { response := writeError e 500, unpackerCalled := true, logicCalled := false }
    | .ok request =>
      match s.unbind request with
      | .error e => { response := writeError e 500, unpackerCalled := true, logicCalled := true }
      | .ok resp =>
        { response := writeResponse 200 resp.payload, unpackerCalled := true, logicCalled := true }

/-- UpdateHandler: version check (412), unpack (500 default on failure),
business logic (500), then 202 when async and 200 otherwise. -/
def updateHandler (s : BusinessLogic) (r : HttpRequest) : HandlerResult :=
  match s.validateBrokerAPIVersion (getBrokerAPIVersionFromRequest r) with
  | some e => { response := writeError e 412, unpackerCalled := false, logicCalled := false }
  | none =>
    match unpackUpdateRequest r with
    | .error e => { response := writeError e 500, unpackerCalled := true, logicCalled := false }
    | .ok request =>
      match s.update request with
      | .error e => { response := writeError e 500, unpackerCalled := true, logicCalled := true }
      | .ok resp =>
        { response := writeResponse (if resp.async then 202 else 200) resp.payload
          unpackerCalled := true, logicCalled := true }

/-- GetBindingHandler: version check (412), unpack (400 default on
failure), extension logic (500), then a 200 write. -/
def getBindingHandler (s : BusinessLogic) (abl : AsyncBindLogic) (r : HttpRequest) :
    HandlerResult :=
  match s.validateBrokerAPIVersion (getBrokerAPIVersionFromRequest r) with
  | some e => { response := writeError e 412, unpackerCalled := false, logicCalled := false }
  | none =>
    match unpackGetBindingRequest r with
    | .error e => { response := writeError e 400, unpackerCalled := true, logicCalled := false }
    | .ok request =>
      match abl.getBinding request with
      | .error e => { response := writeError e 500, unpackerCalled := true, logicCalled := true }
      | .ok resp =>
        { response := writeResponse 200 resp.payload, unpackerCalled := true, logicCalled := true }

/-- BindingLastOperationHandler: version check (412), unpack (400 default
on failure), extension logic (500), then a 200 write. -/
def bindingLastOperationHandler (s : BusinessLogic) (abl : AsyncBindLogic)
    (r : HttpRequest) : HandlerResult :=
  match s.validateBrokerAPIVersion (getBrokerAPIVersionFromRequest r) with
  | some e => { response := writeError e 412, unpackerCalled := false, logicCalled := false }
  | none =>
    match unpackBindingLastOperationRequest r with
    | .error e => { response := writeError e 400, unpackerCalled := true, logicCalled := false }
    | .ok request =>
      match abl.bindingLastOperation request with
      | .error e => { response := writeError e 500, unpackerCalled := true, logicCalled := true }
      | .ok resp =>
        { response := writeResponse 200 resp.payload, unpackerCalled := true, logicCalled := true }

/-! ### Concrete fixtures for witnesses and counterexamples -/

/-- A business logic that accepts every version and answers every operation
(provision and deprovision asynchronously, update synchronously). -/
def blAccepting : BusinessLogic :=
  { validateBrokerAPIVersion := fun _ => none
    getCatalog := fun _ => .ok { payload := .null }
    provision := fun _ => .ok { async := true, payload := .null }
    deprovision := fun _ => .ok { async := true, payload := .null }
    lastOperation := fun _ => .ok { payload := .null }
    bind := fun _ => .ok { payload := .null }
    unbind := fun _ => .ok { payload := .null }
    update := fun _ => .ok { async := false, payload := .null } }

/-- A business logic whose version validation rejects with a plain error. -/
def blRejectGeneric : BusinessLogic :=
  { blAccepting with validateBrokerAPIVersion := fun _ => some (.generic "unsupported version") }

/-- A business logic whose version validation rejects with a status-coded
error carrying status 400. -/
def blRejectHttp400 : BusinessLogic :=
  { blAccepting with
    validateBrokerAPIVersion := fun _ => some (.http 400 none (some "version error")) }

/-- An extension logic that answers both extension operations. -/
def ablAccepting : AsyncBindLogic :=
  { getBinding := fun _ => .ok { payload := .null }
    bindingLastOperation := fun _ => .ok { payload := .null } }

/-- A provision-shaped request: empty-object body, a valid identity header
and accepts_incomplete=TrUe. -/
def reqOkA : HttpRequest :=
  { vars := [("instance_id", "i1")]
    query := [("accepts_incomplete", "TrUe")]
    headers := [("X-Broker-API-Originating-Identity", "kubernetes ZHVkZXI=")]
    body := "\x7b\x7d" }

/-- A deprovision-shaped request with form values and identity header. -/
def reqDeprovA : HttpRequest :=
  { vars := [("instance_id", "i1")]
    query := [("accepts_incomplete", "TrUe"), ("service_id", "s1"), ("plan_id", "p1")]
    headers := [("X-Broker-API-Originating-Identity", "kubernetes ZHVkZXI=")]
    body := "" }

/-- The Update fixture of TestUnpackUpdateRequest: instance_id path
variable i1234, a JSON body carrying service_id s1234 and plan_id p1234,
query accepts_incomplete=true (plus a valid identity header so the
unpacker's identity step succeeds). -/
def reqUpdateC1 : HttpRequest :=
  { vars := [("instance_id", "i1234")]
    query := [("accepts_incomplete", "true")]
    headers := [("X-Broker-API-Originating-Identity", "kubernetes ZHVkZXI=")]
    body := "\x7b\"service_id\":\"s1234\",\"plan_id\":\"p1234\"\x7d" }

/-- A request whose originating-identity header is a single token, so the
identity step of any unpacker fails on client-supplied malformed input. -/
def reqBadIdentity : HttpRequest :=
  { vars := [("instance_id", "i1"), ("binding_id", "b1")]
    query := []
    headers := [("X-Broker-API-Originating-Identity", "malformed")]
    body := "\x7b\x7d" }

/-- A last-operation request with service_id, plan_id and operation in the
URL query and only instance_id among the path variables, as the registered
route supplies. -/
def reqLastOpC8 : HttpRequest :=
  { vars := [("instance_id", "i1234")]
    query := [("service_id", "s1234"), ("plan_id", "p1234"), ("operation", "o1234")]
    headers := []
    body := "" }

/-- A last-operation request whose optional values arrive as path
variables, the source the snapshot's unpacker actually reads. -/
def reqLastOpVars : HttpRequest :=
  { vars := [("instance_id", "i9"), ("service_id", "s9"), ("operation", "o9")]
    query := []
    headers := []
    body := "" }

/-- The GetBinding/BindingLastOperation fixture of the unpacker tests:
distinct instance_id and binding_id path variables. -/
def reqBindingC9 : HttpRequest :=
  { vars := [("instance_id", "i1234"), ("binding_id", "b1234")]
    query := [("service_id", "s1234"), ("plan_id", "p1234"), ("operation", "o1234")]
    headers := [("X-Broker-API-Originating-Identity", "kubernetes ZHVkZXI=")]
    body := "" }

/-- The value unpackProvisionRequest produces on reqOkA. -/
def provReqA : ProvisionRequest :=
  { instanceID := "i1", serviceID := "", planID := "", acceptsIncomplete := true
    originatingIdentity := some { platform := "kubernetes", value := "duder" } }

/-- The value unpackDeprovisionRequest produces on reqDeprovA. -/
def deprovReqA : DeprovisionRequest :=
  { instanceID := "i1", serviceID := "s1", planID := "p1", acceptsIncomplete := true
    originatingIdentity := some { platform := "kubernetes", value := "duder" } }

/-- The value unpackUpdateRequest produces on reqOkA. -/
def updReqA : UpdateInstanceRequest :=
  { instanceID := "", serviceID := "", planID := none, acceptsIncomplete := false
    originatingIdentity := some { platform := "kubernetes", value := "duder" } }

/-! ### Helper lemmas -/

/-- Every error unmarshalBodyFields produces is a plain (non-status-coded)
error. -/
theorem unmarshalBodyFields_error_generic (b : String) (e : GoError)
    (h : unmarshalBodyFields b = .error e) : ∃ m, e = .generic m := by
  unfold unmarshalBodyFields at h
  split at h <;> first
    | (injection h with h1; exact ⟨_, h1.symm⟩)
    | simp at h
    | (split at h <;> first
        | (injection h with h1; exact ⟨_, h1.symm⟩)
        | simp at h)

/-- Every error retrieveOriginatingIdentity produces is a plain error. -/
theorem retrieveOriginatingIdentity_error_generic (r : HttpRequest) (e : GoError)
    (h : retrieveOriginatingIdentity r = .error e) : ∃ m, e = .generic m := by
  unfold retrieveOriginatingIdentity at h
  dsimp only at h
  split at h
  · split at h <;> first
      | (injection h with h1; exact ⟨_, h1.symm⟩)
      | simp at h
      | (split at h <;> first
          | (injection h with h1; exact ⟨_, h1.symm⟩)
          | simp at h)
  · injection h with h1; exact ⟨_, h1.symm⟩

/-- Every error unpackProvisionRequest produces is a plain error. -/
theorem unpackProvisionRequest_error_generic (r : HttpRequest) (e : GoError)
    (h : unpackProvisionRequest r = .error e) : ∃ m, e = .generic m := by
  unfold unpackProvisionRequest at h
  split at h
  · exact unmarshalBodyFields_error_generic _ _ (by rw [‹unmarshalBodyFields r.body = _›]; injection h with h1; rw [h1])
  · split at h
    · exact retrieveOriginatingIdentity_error_generic r e (by rw [‹retrieveOriginatingIdentity r = _›]; injection h with h1; rw [h1])
    · simp at h

/-- Every error unpackBindRequest produces is a plain error. -/
theorem unpackBindRequest_error_generic (r : HttpRequest) (e : GoError)
    (h : unpackBindRequest r = .error e) : ∃ m, e = .generic m := by
  unfold unpackBindRequest at h
  split at h
  · exact unmarshalBodyFields_error_generic _ _ (by rw [‹unmarshalBodyFields r.body = _›]; injection h with h1; rw [h1])
  · split at h
    · exact retrieveOriginatingIdentity_error_generic r e (by rw [‹retrieveOriginatingIdentity r = _›]; injection h with h1; rw [h1])
    · simp at h

/-- Every error unpackUpdateRequest produces is a plain error. -/
theorem unpackUpdateRequest_error_generic (r : HttpRequest) (e : GoError)
    (h : unpackUpdateRequest r = .error e) : ∃ m, e = .generic m := by
  unfold unpackUpdateRequest at h
  split at h
  · exact retrieveOriginatingIdentity_error_generic r e (by rw [‹retrieveOriginatingIdentity r = _›]; injection h with h1; rw [h1])
  · simp at h

/-- A plain error is written at the caller-supplied default status. -/
theorem writeError_generic_status (m : String) (ds : Nat) :
    (writeError (.generic m) ds).status = ds := rfl

/-- A two-token space split forces a non-empty input. -/
theorem splitSpace_pair_ne_empty (h p v : String) (hs : splitSpace h = [p, v]) :
    h ≠ "" := by
  intro h0
  subst h0
  simp [splitSpace, splitOnChar, splitOnCharAux] at hs

/-! ### Claim theorems -/

/-- Claim C1 (code bug): on the very input of TestUnpackUpdateRequest —
path variable instance_id = i1234, a body carrying service_id s1234 and
plan_id p1234, query accepts_incomplete=true — the snapshot's
unpackUpdateRequest returns a request whose InstanceID is empty (never
assigned), whose ServiceID is empty (read from the absent service_id path
variable instead of the body), whose PlanID is unset and whose
AcceptsIncomplete is false, against both the claim and the repository's own
test. -/
theorem c1_update_unpacker_drops_body_and_instance :
    unpackUpdateRequest reqUpdateC1 = .ok
      { instanceID := "", serviceID := "", planID := none, acceptsIncomplete := false
        originatingIdentity := some { platform := "kubernetes", value := "duder" } } ∧
    varsGet reqUpdateC1 osbVarKeyInstanceID = "i1234" ∧
    queryGet reqUpdateC1 osbAcceptsIncomplete = "true" ∧
    jsonLookup ((jsonParse reqUpdateC1.body).getD .null) "service_id" = some (.str "s1234") ∧
    jsonLookup ((jsonParse reqUpdateC1.body).getD .null) "plan_id" = some (.str "p1234") := by
  refine ⟨by decide, by decide, by decide, rfl, rfl⟩

/-- Claim C2: for Provision and Update, when the version check, the
unpacker and the business logic all succeed, the written status is 202
exactly when the response's Async flag is set and 200 otherwise. -/
theorem c2_provision_update_async_status (s : BusinessLogic) (r : HttpRequest)
    (hv : s.validateBrokerAPIVersion (getBrokerAPIVersionFromRequest r) = none) :
    (∀ req resp, unpackProvisionRequest r = .ok req → s.provision req = .ok resp →
      (provisionHandler s r).response.status = if resp.async then 202 else 200) ∧
    (∀ req resp, unpackUpdateRequest r = .ok req → s.update req = .ok resp →
      (updateHandler s r).response.status = if resp.async then 202 else 200) := by
  constructor <;> intro req resp hu hl <;>
    simp [provisionHandler, updateHandler, hv, hu, hl, writeResponse]

/-- Witness for C2 at concrete inputs: an async provision response yields
202 and a synchronous update response yields 200. -/
theorem c2_witness :
    (provisionHandler blAccepting reqOkA).response.status = 202 ∧
    (updateHandler blAccepting reqOkA).response.status = 200 := by
  have h := c2_provision_update_async_status blAccepting reqOkA rfl
  exact ⟨by simpa using h.1 provReqA { async := true, payload := .null } (by decide) rfl,
         by simpa using h.2 updReqA { async := false, payload := .null } (by decide) rfl⟩

/-- Claim C3: for the provision unpacker (query value) and the deprovision
unpacker (form value), the unpacked AcceptsIncomplete flag is set exactly
when the accepts_incomplete value case-insensitively equals "true". -/
theorem c3_accepts_incomplete_iff (r : HttpRequest) :
    (∀ req, unpackProvisionRequest r = .ok req →
      (req.acceptsIncomplete = true ↔
        eqIgnoreCase (queryGet r osbAcceptsIncomplete) "true" = true)) ∧
    (∀ req, unpackDeprovisionRequest r = .ok req →
      (req.acceptsIncomplete = true ↔
        eqIgnoreCase (queryGet r osbAcceptsIncomplete) "true" = true)) := by
  constructor <;> intro req hu
  · unfold unpackProvisionRequest at hu
    split at hu
    · simp at hu
    · split at hu
      · simp at hu
      · injection hu with h1
        subst h1
        show (toLowerStr (queryGet r osbAcceptsIncomplete) == "true") = true ↔ _
        rw [eqIgnoreCase, show toLowerStr "true" = "true" from rfl]
  · unfold unpackDeprovisionRequest at hu
    split at hu
    · simp at hu
    · injection hu with h1
      subst h1
      show (toLowerStr (queryGet r osbAcceptsIncomplete) == "true") = true ↔ _
      rw [eqIgnoreCase, show toLowerStr "true" = "true" from rfl]

/-- Witness for C3 at concrete inputs: the value TrUe sets the flag in both
unpackers. -/
theorem c3_witness :
    (provReqA.acceptsIncomplete = true ↔
      eqIgnoreCase (queryGet reqOkA osbAcceptsIncomplete) "true" = true) ∧
    (deprovReqA.acceptsIncomplete = true ↔
      eqIgnoreCase (queryGet reqDeprovA osbAcceptsIncomplete) "true" = true) :=
  ⟨(c3_accepts_incomplete_iff reqOkA).1 provReqA (by decide),
   (c3_accepts_incomplete_iff reqDeprovA).2 deprovReqA (by decide)⟩

/-- Claim C4 counterexample: a Bind request whose originating-identity
header is malformed (a single token) makes the unpacker fail on
client-supplied input, yet BindHandler writes status 500, not the 400 the
claim asserts. -/
theorem c4_counterexample_bind_unpack_failure_is_500 :
    (unpackBindRequest reqBadIdentity).isErr = true ∧
    (bindHandler blAccepting reqBadIdentity).response.status = 500 ∧
    (bindHandler blAccepting reqBadIdentity).response.status ≠ 400 := by
  decide

/-- Claim C4 as amended: after a passing version check, an unpacker failure
is written at status 400 by ProvisionHandler but at status 500 by
BindHandler and UpdateHandler (all unpacker errors are plain errors, so the
handler's default status is the one written). -/
theorem c4_unpack_failure_statuses (s : BusinessLogic) (r : HttpRequest) (e : GoError)
    (hv : s.validateBrokerAPIVersion (getBrokerAPIVersionFromRequest r) = none) :
    (unpackProvisionRequest r = .error e → (provisionHandler s r).response.status = 400) ∧
    (unpackBindRequest r = .error e → (bindHandler s r).response.status = 500) ∧
    (unpackUpdateRequest r = .error e → (updateHandler s r).response.status = 500) := by
  refine ⟨fun hu => ?_, fun hu => ?_, fun hu => ?_⟩
  · obtain ⟨m, rfl⟩ := unpackProvisionRequest_error_generic r e hu
    simp [provisionHandler, hv, hu, writeError, writeErrorResponse, writeResponse]
  · obtain ⟨m, rfl⟩ := unpackBindRequest_error_generic r e hu
    simp [bindHandler, hv, hu, writeError, writeErrorResponse, writeResponse]
  · obtain ⟨m, rfl⟩ := unpackUpdateRequest_error_generic r e hu
    simp [updateHandler, hv, hu, writeError, writeErrorResponse, writeResponse]

/-- Witness for the amended C4 at a concrete input: the malformed-header
request fails all three unpackers, yielding 400 from Provision and 500 from
Bind and Update. -/
theorem c4_witness :
    (provisionHandler blAccepting reqBadIdentity).response.status = 400 ∧
    (bindHandler blAccepting reqBadIdentity).response.status = 500 ∧
    (updateHandler blAccepting reqBadIdentity).response.status = 500 := by
  have h := c4_unpack_failure_statuses blAccepting reqBadIdentity
    (.generic "invalid originating identity header") rfl
  exact ⟨h.1 (by decide), h.2.1 (by decide), h.2.2 (by decide)⟩

/-- Claim C5 counterexample: the header built from the token kubernetes and
the base64 text e30 followed by a newline and a padding character has three
whitespace-separated tokens, yet resolution succeeds (Go's base64 decoder
ignores the newline), refuting the claim's two-whitespace-token failure
condition; and the header kubernetes NQ== carries a recognized platform
with valid base64 of valid JSON (the number 5), yet resolution fails,
refuting the claim's success condition read literally. -/
theorem c5_counterexample_whitespace_and_shape :
    (whitespaceTokens "kubernetes e30\n=").length = 3 ∧
    resolveIdentity "kubernetes e30\n=" = .ok (.k8s "kubernetes" UserInfo.zero) ∧
    base64Decode "NQ==" = some "5" ∧
    (jsonParse "5").isSome = true ∧
    recognizedPlatform "kubernetes" = true ∧
    (resolveIdentity "kubernetes NQ==").isErr = true := by
  refine ⟨by decide, rfl, by decide, rfl, by decide, rfl⟩

/-- Claim C5 as amended: for a non-empty header, resolution (the splitting
of retrieveOriginatingIdentity feeding NewIdentity) fails when the header
does not split on the single space character into exactly two tokens, fails
when the second token is not valid base64, fails when the decoded payload
does not parse as JSON of the (recognized) platform's expected shape, and
fails when the platform token is not recognized; and a header that splits
into a recognized platform and a base64 token whose payload unmarshals into
that platform's shape resolves to an identity tagged with that platform. -/
theorem c5_identity_resolution :
    (∀ h : String, h ≠ "" → (splitSpace h).length ≠ 2 →
      (resolveIdentity h).isErr = true) ∧
    (∀ h p v, splitSpace h = [p, v] → base64Decode v = none →
      (resolveIdentity h).isErr = true) ∧
    (∀ h p v payload, splitSpace h = [p, v] → base64Decode v = some payload →
      recognizedPlatform p = true → platformShapeOk p payload = false →
      (resolveIdentity h).isErr = true) ∧
    (∀ h p v, splitSpace h = [p, v] → recognizedPlatform p = false →
      (resolveIdentity h).isErr = true) ∧
    (∀ h p v payload j u, splitSpace h = [p, v] → base64Decode v = some payload →
      toLowerStr p = "kubernetes" → jsonParse payload = some j →
      unmarshalUserInfo j = some u →
      resolveIdentity h = .ok (.k8s p u)) ∧
    (∀ h p v payload j m, splitSpace h = [p, v] → base64Decode v = some payload →
      toLowerStr p = "cloudfoundry" → jsonParse payload = some j →
      unmarshalMapObj j = some m →
      resolveIdentity h = .ok (.cloudFoundry p m)) := by
  refine ⟨?_, ?_, ?_, ?_, ?_, ?_⟩
  · intro h hne hlen
    unfold resolveIdentity
    rw [if_pos hne]
    rcases hs : splitSpace h with _ | ⟨p, _ | ⟨v, _ | ⟨w, t⟩⟩⟩
    · rfl
    · rfl
    · exact absurd (by rw [hs]; rfl) hlen
    · rfl
  · intro h p v hs hb
    unfold resolveIdentity
    rw [if_pos (splitSpace_pair_ne_empty h p v hs), hs]
    show (NewIdentity p v).isErr = true
    simp [NewIdentity, hb, GoResult.isErr]
  · intro h p v payload hs hb hrec hshape
    unfold resolveIdentity
    rw [if_pos (splitSpace_pair_ne_empty h p v hs), hs]
    show (NewIdentity p v).isErr = true
    unfold platformShapeOk at hshape
    by_cases hk : toLowerStr p = "kubernetes"
    · rw [if_pos hk] at hshape
      rcases hj : jsonParse payload with _ | j
      · simp [NewIdentity, hb, hk, hj, GoResult.isErr]
      · simp only [hj] at hshape
        rcases hu : unmarshalUserInfo j with _ | u
        · simp [NewIdentity, hb, hk, hj, hu, GoResult.isErr]
        · rw [hu] at hshape; simp at hshape
    · rw [if_neg hk] at hshape
      by_cases hc : toLowerStr p = "cloudfoundry"
      · rw [if_pos hc] at hshape
        rcases hj : jsonParse payload with _ | j
        · simp [NewIdentity, hb, hk, hc, hj, GoResult.isErr]
        · simp only [hj] at hshape
          rcases hm : unmarshalMapObj j with _ | m
          · simp [NewIdentity, hb, hk, hc, hj, hm, GoResult.isErr]
          · rw [hm] at hshape; simp at hshape
      · simp [NewIdentity, hb, hk, hc, GoResult.isErr]
  · intro h p v hs hrec
    unfold resolveIdentity
    rw [if_pos (splitSpace_pair_ne_empty h p v hs), hs]
    show (NewIdentity p v).isErr = true
    unfold recognizedPlatform at hrec
    simp only [Bool.or_eq_false_iff, beq_eq_false_iff_ne, ne_eq] at hrec
    rcases hb : base64Decode v with _ | payload
    · simp [NewIdentity, hb, GoResult.isErr]
    · simp [NewIdentity, hb, hrec.1, hrec.2, GoResult.isErr]
  · intro h p v payload j u hs hb hk hj hu
    unfold resolveIdentity
    rw [if_pos (splitSpace_pair_ne_empty h p v hs), hs]
    show NewIdentity p v = _
    simp [NewIdentity, hb, hk, hj, hu]
  · intro h p v payload j m hs hb hc hj hm
    unfold resolveIdentity
    rw [if_pos (splitSpace_pair_ne_empty h p v hs), hs]
    show NewIdentity p v = _
    have hnk : ¬ toLowerStr p = "kubernetes" := by rw [hc]; decide
    simp [NewIdentity, hb, hnk, hc, hj, hm]

/-- Witness for the amended C5, one concrete instance per conjunct: a
three-token header, an invalid base64 token, a recognized platform with a
wrongly shaped payload, an unrecognized platform, and a successful
kubernetes and cloudfoundry resolution. -/
theorem c5_witness :
    (resolveIdentity "a b c").isErr = true ∧
    (resolveIdentity "kubernetes !!").isErr = true ∧
    (resolveIdentity "kubernetes NQ==").isErr = true ∧
    (resolveIdentity "other e30=").isErr = true ∧
    resolveIdentity "kubernetes e30=" = .ok (.k8s "kubernetes" UserInfo.zero) ∧
    resolveIdentity "cloudfoundry e30=" = .ok (.cloudFoundry "cloudfoundry" []) := by
  refine ⟨c5_identity_resolution.1 "a b c" (by decide) (by decide),
    c5_identity_resolution.2.1 "kubernetes !!" "kubernetes" "!!" (by decide) (by decide),
    c5_identity_resolution.2.2.1 "kubernetes NQ==" "kubernetes" "NQ==" "5"
      (by decide) (by decide) (by decide) (by decide),
    c5_identity_resolution.2.2.2.1 "other e30=" "other" "e30=" (by decide) (by decide),
    c5_identity_resolution.2.2.2.2.1 "kubernetes e30=" "kubernetes" "e30=" "\x7b\x7d"
      (.obj []) UserInfo.zero (by decide) (by decide) (by decide) rfl rfl,
    c5_identity_resolution.2.2.2.2.2 "cloudfoundry e30=" "cloudfoundry" "e30=" "\x7b\x7d"
      (.obj []) [] (by decide) (by decide) (by decide) rfl rfl⟩

/-- Claim C6 counterexample: a version validation that rejects with a
status-coded error of status 400 makes the handler write 400, not the 412
the claim asserts (the error writer lets a structured error override the
412 default). -/
theorem c6_counterexample_status_coded_rejection :
    (blRejectHttp400.validateBrokerAPIVersion
      (getBrokerAPIVersionFromRequest reqOkA)).isSome = true ∧
    (provisionHandler blRejectHttp400 reqOkA).response.status = 400 ∧
    (provisionHandler blRejectHttp400 reqOkA).response.status ≠ 412 := by
  decide

/-- Claim C6 as amended: in every one of the nine operation handlers, a
version-validation rejection makes the handler write the rejection error at
default status 412 — so at 412 itself whenever the rejection is a plain
error — and stop without invoking the operation's unpacker or the
business-logic operation. -/
theorem c6_version_rejection_short_circuits (s : BusinessLogic) (abl : AsyncBindLogic)
    (r : HttpRequest) (e : GoError)
    (hv : s.validateBrokerAPIVersion (getBrokerAPIVersionFromRequest r) = some e) :
    getCatalogHandler s r =
      { response := writeError e 412, unpackerCalled := false, logicCalled := false } ∧
    provisionHandler s r =
      { response := writeError e 412, unpackerCalled := false, logicCalled := false } ∧
    deprovisionHandler s r =
      { response := writeError e 412, unpackerCalled := false, logicCalled := false } ∧
    lastOperationHandler s r =
      { response := writeError e 412, unpackerCalled := false, logicCalled := false } ∧
    bindHandler s r =
      { response := writeError e 412, unpackerCalled := false, logicCalled := false } ∧
    unbindHandler s r =
      { response := writeError e 412, unpackerCalled := false, logicCalled := false } ∧
    updateHandler s r =
      { response := writeError e 412, unpackerCalled := false, logicCalled := false } ∧
    getBindingHandler s abl r =
      { response := writeError e 412, unpackerCalled := false, logicCalled := false } ∧
    bindingLastOperationHandler s abl r =
      { response := writeError e 412, unpackerCalled := false, logicCalled := false } ∧
    (∀ m, e = .generic m → (writeError e 412).status = 412) := by
  refine ⟨?_, ?_, ?_, ?_, ?_, ?_, ?_, ?_, ?_, ?_⟩ <;> first
    | simp [getCatalogHandler, provisionHandler, deprovisionHandler, lastOperationHandler,
        bindHandler, unbindHandler, updateHandler, getBindingHandler,
        bindingLastOperationHandler, hv]
    | (intro m hm; subst hm; rfl)

/-- Witness for the amended C6 at a concrete input: a plain rejection makes
every handler write 412 and call nothing downstream. -/
theorem c6_witness :
    getCatalogHandler blRejectGeneric reqOkA =
      { response := writeError (.generic "unsupported version") 412
        unpackerCalled := false, logicCalled := false } ∧
    provisionHandler blRejectGeneric reqOkA =
      { response := writeError (.generic "unsupported version") 412
        unpackerCalled := false, logicCalled := false } ∧
    updateHandler blRejectGeneric reqOkA =
      { response := writeError (.generic "unsupported version") 412
        unpackerCalled := false, logicCalled := false } ∧
    bindingLastOperationHandler blRejectGeneric ablAccepting reqOkA =
      { response := writeError (.generic "unsupported version") 412
        unpackerCalled := false, logicCalled := false } ∧
    (writeError (.generic "unsupported version") 412).status = 412 := by
  have h := c6_version_rejection_short_circuits blRejectGeneric ablAccepting reqOkA
    (.generic "unsupported version") rfl
  exact ⟨h.1, h.2.1, h.2.2.2.2.2.2.1, h.2.2.2.2.2.2.2.2.1,
    h.2.2.2.2.2.2.2.2.2 "unsupported version" rfl⟩

/-- Claim C7: a status-coded error is written at its own status with a body
holding exactly the error and description members that were set, in struct
order; a plain error is written at the caller's default status with only
the description member, and the concrete 404 "gone" instance of the claim
behaves accordingly. -/
theorem c7_error_writer :
    (∀ (s : Nat) (em d : Option String) (ds : Nat),
      (writeError (.http s em d) ds).status = s ∧
      jsonLookup (writeError (.http s em d) ds).body "error" = em.map Json.str ∧
      jsonLookup (writeError (.http s em d) ds).body "description" = d.map Json.str ∧
      jsonKeys (writeError (.http s em d) ds).body =
        (match em with | some _ => ["error"] | none => []) ++
        (match d with | some _ => ["description"] | none => [])) ∧
    (∀ (m : String) (ds : Nat),
      writeError (.generic m) ds =
        { status := ds, body := .obj [("description", Json.str m)] }) ∧
    writeError (.http 404 none (some "gone")) 500 =
      { status := 404, body := .obj [("description", Json.str "gone")] } := by
  refine ⟨?_, fun m ds => rfl, rfl⟩
  intro s em d ds
  cases em <;> cases d <;>
    simp [writeError, writeOSBStatusCodeErrorResponse, writeResponse, jsonLookup,
      jsonKeys, List.lookup]

/-- Claim C8 counterexample: with service_id, plan_id and operation present
in the URL query (and only instance_id among the path variables, as the
registered route supplies), the last-operation unpacker leaves all three
optional fields unset, against the claim that non-empty query values
populate them. -/
theorem c8_counterexample_query_ignored :
    unpackLastOperationRequest reqLastOpC8 =
      .ok { instanceID := "i1234", serviceID := none, planID := none, operationKey := none } ∧
    queryGet reqLastOpC8 osbVarKeyServiceID = "s1234" ∧
    queryGet reqLastOpC8 osbVarKeyPlanID = "p1234" ∧
    queryGet reqLastOpC8 osbVarKeyOperation = "o1234" := by
  decide

/-- Presence behaviour of the optional-field assignment pattern: the field
holds exactly a non-empty source value and is unset exactly when the source
value is empty. -/
theorem optOfNonEmpty_spec (v : String) :
    (∀ x, (if v ≠ "" then some v else none) = some x ↔ (v = x ∧ x ≠ "")) ∧
    ((if v ≠ "" then some v else none) = none ↔ v = "") := by
  by_cases hv : v = ""
  · subst hv
    simp
  · simp only [ne_eq, hv, not_false_eq_true, if_true]
    constructor
    · intro x
      constructor
      · intro h
        injection h with h1
        exact ⟨h1, fun hx => hv (h1.trans hx)⟩
      · intro h
        rw [h.1]
    · simp [hv]

/-- Claim C8 as amended: the last-operation unpacker always succeeds, takes
the instance id from the instance_id path variable, and fills each of the
optional service id, plan id and operation fields from the service_id,
plan_id and operation path variables — present exactly when the variable is
non-empty, unset exactly when it is empty or absent; the URL query is never
consulted. -/
theorem c8_last_operation_optional_fields_from_vars (r : HttpRequest) :
    ∃ q, unpackLastOperationRequest r = .ok q ∧
      q.instanceID = varsGet r osbVarKeyInstanceID ∧
      (∀ x, q.serviceID = some x ↔ (varsGet r osbVarKeyServiceID = x ∧ x ≠ "")) ∧
      (q.serviceID = none ↔ varsGet r osbVarKeyServiceID = "") ∧
      (∀ x, q.planID = some x ↔ (varsGet r osbVarKeyPlanID = x ∧ x ≠ "")) ∧
      (q.planID = none ↔ varsGet r osbVarKeyPlanID = "") ∧
      (∀ x, q.operationKey = some x ↔ (varsGet r osbVarKeyOperation = x ∧ x ≠ "")) ∧
      (q.operationKey = none ↔ varsGet r osbVarKeyOperation = "") :=
  ⟨_, rfl, rfl,
    (optOfNonEmpty_spec (varsGet r osbVarKeyServiceID)).1,
    (optOfNonEmpty_spec (varsGet r osbVarKeyServiceID)).2,
    (optOfNonEmpty_spec (varsGet r osbVarKeyPlanID)).1,
    (optOfNonEmpty_spec (varsGet r osbVarKeyPlanID)).2,
    (optOfNonEmpty_spec (varsGet r osbVarKeyOperation)).1,
    (optOfNonEmpty_spec (varsGet r osbVarKeyOperation)).2⟩

/-- Witness for the amended C8 at a concrete input: values supplied as path
variables populate the optional fields, and an absent variable leaves its
field unset. -/
theorem c8_witness :
    ∃ q, unpackLastOperationRequest reqLastOpVars = .ok q ∧
      q.serviceID = some "s9" ∧ q.planID = none ∧ q.operationKey = some "o9" := by
  obtain ⟨q, hq, hi, hs, hsn, hp, hpn, ho, hon⟩ :=
    c8_last_operation_optional_fields_from_vars reqLastOpVars
  exact ⟨q, hq, (hs "s9").mpr (by decide), hpn.mpr (by decide), (ho "o9").mpr (by decide)⟩

/-- Claim C9 (code bug): with distinct instance_id and binding_id path
variables (the fixture of TestUnpackGetBindingRequest), both the GetBinding
and the BindingLastOperation unpackers set BindingID to the instance_id
value, not the binding_id value the claim and the repository's own test
require. -/
theorem c9_binding_id_read_from_instance_var :
    unpackGetBindingRequest reqBindingC9 = .ok { instanceID := "i1234", bindingID := "i1234" } ∧
    unpackBindingLastOperationRequest reqBindingC9 = .ok
      { instanceID := "i1234", bindingID := "i1234"
        serviceID := some "s1234", planID := some "p1234", operationKey := some "o1234"
        originatingIdentity := some { platform := "kubernetes", value := "duder" } } ∧
    varsGet reqBindingC9 osbVarKeyBindingID = "b1234" ∧
    ("i1234" : String) ≠ "b1234" := by
  decide

/-- Claim C10: for Deprovision, when the version check, the unpacker and
the business logic all succeed, the written status is 202 exactly when the
response's Async flag is set and 200 otherwise — the same selection as
Provision and Update. -/
theorem c10_deprovision_async_status (s : BusinessLogic) (r : HttpRequest)
    (hv : s.validateBrokerAPIVersion (getBrokerAPIVersionFromRequest r) = none) :
    ∀ req resp, unpackDeprovisionRequest r = .ok req → s.deprovision req = .ok resp →
      (deprovisionHandler s r).response.status = if resp.async then 202 else 200 := by
  intro req resp hu hl
  simp [deprovisionHandler, hv, hu, hl, writeResponse]

/-- Witness for C10 at a concrete input: an async deprovision response
yields 202. -/
theorem c10_witness :
    (deprovisionHandler blAccepting reqDeprovA).response.status = 202 := by
  simpa using c10_deprovision_async_status blAccepting reqDeprovA rfl deprovReqA
    { async := true, payload := .null } (by decide) rfl
